import Mathlib

/-!
Shallow embedding of the scoring core of the `analyzer-mvp` repository
(`src/services/analyzer/scoring.engine.js`, `src/config/index.js`,
`src/controllers/analyzer.controller.js`, and the per-chain services that
define `calculateGini`), together with theorems settling the frozen claims
about it.

JavaScript numbers are modelled by `ℚ`; the divisions that can produce
`NaN`/`Infinity` in JavaScript (`0/0`, `x/0`) feed only comparison
branches in the source, so they are modelled by the small `JsNum` type
below with JavaScript comparison semantics.  `parseFloat(x.toFixed(2))`
is modelled by `round2` (round half up at the hundredths digit; all
ladder deltas in the source are multiples of 0.1, so the rounding rule is
only observable on the social blend and the overall score).  Presentation
strings that interpolate numbers (the on-chain scorer's flag messages)
are abstracted to constructor tags; flag strings without interpolation
are kept verbatim.
-/

namespace Analyzer

/-- JavaScript number resulting from a division: finite, `Infinity`,
`-Infinity`, or `NaN`. -/
inductive JsNum where
  | nan : JsNum
  | posInf : JsNum
  | negInf : JsNum
  | fin : ℚ → JsNum
deriving DecidableEq, Repr

/-- JavaScript division `a / b` on finite operands: `0/0` is `NaN`,
`x/0` is signed infinity, otherwise exact. -/
def jsDiv (a b : ℚ) : JsNum :=
  if b = 0 then
    if a = 0 then .nan else if a > 0 then .posInf else .negInf
  else .fin (a / b)

/-- JavaScript `>` against a finite constant (`NaN` compares false). -/
def jsGt (x : JsNum) (c : ℚ) : Bool :=
  match x with
  | .nan => false
  | .posInf => true
  | .negInf => false
  | .fin q => decide (q > c)

/-- JavaScript `<` against a finite constant (`NaN` compares false). -/
def jsLt (x : JsNum) (c : ℚ) : Bool :=
  match x with
  | .nan => false
  | .posInf => false
  | .negInf => true
  | .fin q => decide (q < c)

/-- JavaScript `>=` against a finite constant (`NaN` compares false). -/
def jsGe (x : JsNum) (c : ℚ) : Bool :=
  match x with
  | .nan => false
  | .posInf => true
  | .negInf => false
  | .fin q => decide (q ≥ c)

/-- Model of `parseFloat(x.toFixed(2))`: round to two decimal places. -/
def round2 (q : ℚ) : ℚ := (round (q * 100) : ℤ) / 100

/-- Model of `Math.max(0, Math.min(10, x))`. -/
def clamp10 (q : ℚ) : ℚ := max 0 (min 10 q)

/-- Model of `field || 0` on an optional numeric field. -/
def orZero (o : Option ℚ) : ℚ := o.getD 0

theorem clamp10_nonneg (q : ℚ) : 0 ≤ clamp10 q := le_max_left 0 _

theorem clamp10_le_ten (q : ℚ) : clamp10 q ≤ 10 :=
  max_le (by norm_num) (min_le_left 10 q)

theorem clamp10_eq_ite (q : ℚ) :
    clamp10 q = if q < 0 then 0 else if 10 < q then 10 else q := by
  unfold clamp10
  split_ifs with h1 h2
  · rw [min_eq_right (by linarith), max_eq_left (by linarith)]
  · rw [min_eq_left (by linarith), max_eq_right (by norm_num)]
  · rw [min_eq_right (by linarith), max_eq_right (by linarith)]

/-! ## Configuration (`src/config/index.js`) and the engine shell -/

/-- Component weights (`config.scoring.weights`). -/
structure Weights where
  tokenomics : ℚ
  liquidity : ℚ
  social : ℚ
  onchain : ℚ
deriving DecidableEq, Repr

/-- Classification thresholds (`config.scoring.thresholds`). -/
structure Thresholds where
  green : ℚ
  yellow : ℚ
deriving DecidableEq, Repr

/-- Default weights from `src/config/index.js`. -/
def defaultWeights : Weights := ⟨0.30, 0.25, 0.20, 0.25⟩

/-- Default thresholds from `src/config/index.js`. -/
def defaultThresholds : Thresholds := ⟨7.0, 5.0⟩

/-- State held by the `ScoringEngine` class. -/
structure ScoringEngine where
  weights : Weights
  thresholds : Thresholds
deriving DecidableEq, Repr

/-- The `ScoringEngine` constructor.  The source constructor only assigns
`this.weights` and `this.thresholds`; it contains no validation and no
throw, so it is modelled with an error channel that is never used (an
`Except.error` would model a thrown configuration error). -/
def mkScoringEngine (w : Weights) (t : Thresholds) : Except String ScoringEngine :=
  .ok ⟨w, t⟩

/-- Sum of the four component weights. -/
def weightSum (w : Weights) : ℚ :=
  w.tokenomics + w.liquidity + w.social + w.onchain

/-- The engine built from the default configuration. -/
def defaultEngine : ScoringEngine := ⟨defaultWeights, defaultThresholds⟩

/-- The four component scores fed to `calculateOverallScore`. -/
structure Scores where
  tokenomics : ℚ
  liquidity : ℚ
  social : ℚ
  onchain : ℚ
deriving DecidableEq, Repr

/-- The weighted sum computed in `calculateOverallScore` before
`parseFloat(overall.toFixed(2))`. -/
def overallRaw (w : Weights) (s : Scores) : ℚ :=
  s.tokenomics * w.tokenomics + s.liquidity * w.liquidity +
    s.social * w.social + s.onchain * w.onchain

/-- `ScoringEngine.calculateOverallScore`. -/
def calculateOverallScore (e : ScoringEngine) (s : Scores) : ℚ :=
  round2 (overallRaw e.weights s)

/-- Classification level returned by `classifyScore`. -/
inductive Level where
  | GREEN : Level
  | YELLOW : Level
  | RED : Level
deriving DecidableEq, Repr

/-- Result of `classifyScore`. -/
structure Classification where
  level : Level
  description : String
deriving DecidableEq, Repr

/-- `ScoringEngine.classifyScore`. -/
def classifyScore (e : ScoringEngine) (score : ℚ) : Classification :=
  if score ≥ e.thresholds.green then ⟨.GREEN, "Strong fundamentals"⟩
  else if score ≥ e.thresholds.yellow then ⟨.YELLOW, "Moderate fundamentals"⟩
  else ⟨.RED, "Weak fundamentals"⟩

/-! ## Tokenomics scorer (`scoreTokenomics`) -/

/-- Input shape consumed by `scoreTokenomics` (`coinData`). -/
structure CoinData where
  circulating_supply : ℚ
  total_supply : ℚ
  max_supply : Option ℚ
  price_usd : ℚ
  market_cap : ℚ
deriving DecidableEq, Repr

/-- Result of `scoreTokenomics` (the `details` map, being purely
presentational, is not tracked). -/
structure TokenomicsResult where
  score : ℚ
  flags : List String
deriving DecidableEq, Repr

/-- Circulating-ratio ladder of `scoreTokenomics`: delta and flag. -/
def circAdj (cr : JsNum) : ℚ × String :=
  if jsGt cr 0.7 then (2, "High circulating ratio (>70%) - Good")
  else if jsGt cr 0.4 then (1, "Moderate circulating ratio (40-70%)")
  else (-1, "Low circulating ratio (<40%) - Risk of dilution")

/-- Max-supply check of `scoreTokenomics`: the JavaScript condition is
`coinData.max_supply && coinData.max_supply > 0` (a missing or zero
`max_supply` is falsy). -/
def maxSupplyAdj (ms : Option ℚ) : ℚ × String :=
  match ms with
  | some m =>
      if 0 < m then (1, "Fixed max supply - Predictable")
      else (-0.5, "No max supply - Potential inflation")
  | none => (-0.5, "No max supply - Potential inflation")

/-- FDV/market-cap ladder of `scoreTokenomics`. -/
def fdvAdj (fm : JsNum) : ℚ × String :=
  if jsLt fm 1.5 then (1.5, "Low FDV/MC ratio (<1.5x) - Low unlock pressure")
  else if jsLt fm 3 then (0.5, "Moderate FDV/MC ratio (1.5-3x)")
  else (-1, "High FDV/MC ratio (>3x) - High unlock risk")

/-- `ScoringEngine.scoreTokenomics`. -/
def scoreTokenomics (c : CoinData) : TokenomicsResult :=
  let cr := jsDiv c.circulating_supply c.total_supply
  let a1 := circAdj cr
  let a2 := maxSupplyAdj c.max_supply
  let fdv := c.price_usd * c.total_supply
  let fm := jsDiv fdv c.market_cap
  let a3 := fdvAdj fm
  { score := clamp10 (round2 (5 + a1.1 + a2.1 + a3.1))
  , flags := [a1.2, a2.2, a3.2] }

/-! ## Liquidity scorer (`scoreLiquidity`) -/

/-- Input shape consumed by `scoreLiquidity` (`coinData.liquidity`). -/
structure LiquidityData where
  volume_to_market_cap : ℚ
  binance_volume : ℚ
  total_volume : ℚ
deriving DecidableEq, Repr

/-- Result of `scoreLiquidity`. -/
structure LiquidityResult where
  score : ℚ
  flags : List String
deriving DecidableEq, Repr

/-- Volume/market-cap ladder of `scoreLiquidity`. -/
def volAdj (r : ℚ) : ℚ × String :=
  if r > 10 then (2.5, "High volume/mcap ratio (>10%) - Very liquid")
  else if r > 5 then (1.5, "Good volume/mcap ratio (5-10%)")
  else if r > 2 then (0.5, "Moderate volume/mcap ratio (2-5%)")
  else (-1, "Low volume/mcap ratio (<2%) - Illiquid")

/-- Binance volume-share ladder of `scoreLiquidity`: the adjustment
applied to the score for a given `binanceRatio`. -/
def binanceAdjust (r : JsNum) : ℚ :=
  if jsGt r 0.3 && jsLt r 0.8 then 2
  else if jsGe r 0.8 then 1
  else if jsGt r 0.1 then 0.5
  else -1.5

/-- Flag pushed by the Binance volume-share ladder. -/
def binanceFlagStr (r : JsNum) : String :=
  if jsGt r 0.3 && jsLt r 0.8 then "Healthy Binance volume (30-80%) - Real volume"
  else if jsGe r 0.8 then "High Binance dominance (>80%) - Centralized but safe"
  else if jsGt r 0.1 then "Low Binance volume (10-30%)"
  else "Very low Binance volume (<10%) - Wash trading risk"

/-- Absolute-volume ladder of `scoreLiquidity` (no delta between $1M and
$10M). -/
def absVolAdj (v : ℚ) : ℚ :=
  if v > 50000000 then 1
  else if v > 10000000 then 0.5
  else if v < 1000000 then -1
  else 0

/-- Flags pushed by the absolute-volume ladder (none between $1M and
$10M). -/
def absVolFlags (v : ℚ) : List String :=
  if v > 50000000 then ["High absolute volume (>$50M)"]
  else if v > 10000000 then ["Moderate volume ($10-50M)"]
  else if v < 1000000 then ["Low volume (<$1M) - Risky"]
  else []

/-- `ScoringEngine.scoreLiquidity`. -/
def scoreLiquidity (l : LiquidityData) : LiquidityResult :=
  let vr := l.volume_to_market_cap
  let v1 := volAdj vr
  let br := jsDiv l.binance_volume l.total_volume
  { score := clamp10 (round2 (5 + v1.1 + binanceAdjust br + absVolAdj l.total_volume))
  , flags := [v1.2, binanceFlagStr br] ++ absVolFlags l.total_volume }

/-! ## Social scorer (`scoreSocial`) -/

/-- Input shape consumed by `scoreSocial`; the per-platform sub-objects
(`twitter`/`reddit`/`github`) only produce presentation flags and never
touch the score, so they are not tracked. -/
structure SocialData where
  data_source : Option String
  community_score : Option ℚ
  engagement_score : Option ℚ
  developer_score : Option ℚ
  sentiment : Option String
  galaxy_score : ℚ
  alt_rank : ℚ
  social_volume_24h : ℚ
deriving DecidableEq, Repr

/-- Result of `scoreSocial` (score field only). -/
structure SocialResult where
  score : ℚ
deriving DecidableEq, Repr

/-- `ScoringEngine.scoreSocial`: branches on the
`data_source === "real (enhanced)"` discriminator. -/
def scoreSocial (s : SocialData) : SocialResult :=
  let isEnhanced := s.data_source = some "real (enhanced)"
  let raw : ℚ :=
    if isEnhanced then
      let c := orZero s.community_score
      let e := orZero s.engagement_score
      let d := orZero s.developer_score
      let base := ((c * 0.4 + e * 0.3 + d * 0.3) / 100) * 10
      base +
        (if s.sentiment = some "bullish" then 0.5
         else if s.sentiment = some "bearish" then -0.5 else 0)
    else
      let base := 5 + ((s.galaxy_score / 100) * 4 - 2)
      base +
        (if s.alt_rank ≤ 100 then 2
         else if s.alt_rank ≤ 500 then 1
         else if s.alt_rank > 2000 then -1 else 0) +
        (if s.sentiment = some "bullish" then 1
         else if s.sentiment = some "bearish" then -0.5 else 0) +
        (if s.social_volume_24h > 20000 then 1
         else if s.social_volume_24h < 5000 then -0.5 else 0)
  ⟨clamp10 (round2 raw)⟩

/-! ## On-chain scorer (`scoreOnchain`, the tier-aware revision) -/

/-- Per-chain record consumed by `scoreOnchain` (`Object.values(chains)`,
score-relevant fields). -/
structure ChainMetrics where
  chain : String
  total_holders : Option ℚ
  estimated_active_7d : Option ℚ
  estimated_active_30d : Option ℚ
  top_10_concentration : Option ℚ
  gini_coefficient : Option ℚ
  reliability : Option String
  activity_confidence : Option String
deriving DecidableEq, Repr

/-- The `chain_info` sub-object of the on-chain input. -/
structure ChainInfo where
  is_multichain : Bool
  primary : Option String
deriving DecidableEq, Repr

/-- Input shape consumed by `scoreOnchain` (`onchainData`); the `chains`
map is kept in `Object.values` order. -/
structure OnchainData where
  total_holders : Option ℚ
  active_addresses_7d : Option ℚ
  active_addresses_30d : Option ℚ
  total_transfers_24h : Option ℚ
  total_transfers_7d : Option ℚ
  chains : List ChainMetrics
  chain_info : Option ChainInfo
  chain_count : Option ℚ
  weighted_concentration : Option ℚ
  address_growth_mom : Option ℚ
  tvl_change_7d : Option ℚ
  daily_active_ratio : Option ℚ
deriving DecidableEq, Repr

/-- Red-flag messages pushed by `scoreOnchain`, abstracted to tags (the
source messages interpolate numbers and emoji). -/
inductive RedFlag where
  | preLaunch : RedFlag
  | chainExtremeConc : String → RedFlag
  | chainGiniExtreme : String → RedFlag
  | extremeConcentration : RedFlag
  | nearZeroActivity : RedFlag
  | sharpDecline : RedFlag
  | collapsing : RedFlag
  | tvlCrash : RedFlag
  | ghostToken : RedFlag
  | nearDead : RedFlag
  | whaleControlled : RedFlag
  | whaleDominance : RedFlag
  | likelyAbandoned : RedFlag
deriving DecidableEq, Repr

/-- Result of `scoreOnchain` (score-relevant and claim-relevant fields;
the aggregate totals mirror the `details` map of the source). -/
structure OnchainResult where
  score : ℚ
  tier : String
  total_holders : ℚ
  active_addresses_7d : ℚ
  active_addresses_30d : ℚ
  total_transfers_24h : ℚ
  total_transfers_7d : ℚ
  red_flags : List RedFlag
  data_quality : String
deriving DecidableEq, Repr

/-- Aggregated holder total: root value, or the sum over chains when the
chain list is non-empty and the root total is zero. -/
def aggHolders (d : OnchainData) : ℚ :=
  let root := orZero d.total_holders
  if d.chains.length > 0 ∧ root = 0 then
    d.chains.foldl (fun sum c => sum + orZero c.total_holders) 0
  else root

/-- Aggregated 7-day active addresses (overwritten from chains exactly
when the holder aggregation branch is taken). -/
def aggActive7 (d : OnchainData) : ℚ :=
  let root := orZero d.total_holders
  if d.chains.length > 0 ∧ root = 0 then
    d.chains.foldl (fun sum c => sum + orZero c.estimated_active_7d) 0
  else orZero d.active_addresses_7d

/-- Aggregated 30-day active addresses. -/
def aggActive30 (d : OnchainData) : ℚ :=
  let root := orZero d.total_holders
  if d.chains.length > 0 ∧ root = 0 then
    d.chains.foldl (fun sum c => sum + orZero c.estimated_active_30d) 0
  else orZero d.active_addresses_30d

/-- The five holder tiers of `scoreOnchain` (the source uses the string
values given by `tierName`). -/
inductive Tier where
  | mega : Tier
  | large : Tier
  | mid : Tier
  | small : Tier
  | micro : Tier
deriving DecidableEq, Repr

/-- The string value of each tier in the source. -/
def tierName : Tier → String
  | .mega => "mega"
  | .large => "large"
  | .mid => "mid"
  | .small => "small"
  | .micro => "micro"

/-- Holder-count tier classification (the `tier` assignment chain in
`scoreOnchain`). -/
def classifyTier (h : ℚ) : Tier :=
  if h > 1000000 then .mega
  else if h > 100000 then .large
  else if h > 10000 then .mid
  else if h > 1000 then .small
  else .micro

/-- Rank of a tier, for stating monotonicity. -/
def tierRank : Tier → ℕ
  | .mega => 4
  | .large => 3
  | .mid => 2
  | .small => 1
  | .micro => 0

/-- Holder-base ladder (section 1 of `scoreOnchain`), tier-adjusted. -/
def holderAdj (tier : Tier) (tH : ℚ) : ℚ :=
  match tier with
  | .mega => 3
  | .large => if tH > 500000 then 2.8 else if tH > 250000 then 2.5 else 2.2
  | .mid => if tH > 50000 then 2 else if tH > 25000 then 1.6 else 1.2
  | .small => if tH > 5000 then 1 else if tH > 2500 then 0.7 else 0.4
  | .micro =>
      if tH > 500 then 0.2
      else if tH > 250 then 0
      else if tH > 100 then -0.3
      else if tH > 50 then -0.8
      else if tH > 0 then -1.5
      else 0

/-- Red flag pushed by the holder-base ladder (micro tier, 0 < holders
≤ 50: pre-launch stage). -/
def holderRF (tier : Tier) (tH : ℚ) : List RedFlag :=
  match tier with
  | .micro =>
      if tH > 500 then []
      else if tH > 250 then []
      else if tH > 100 then []
      else if tH > 50 then []
      else if tH > 0 then [.preLaunch]
      else []
  | _ => []

/-- Worst per-chain top-10 concentration (the `worstConcentration`
accumulator; chains reporting 0 are skipped). -/
def worstConc (chains : List ChainMetrics) : ℚ :=
  chains.foldl
    (fun w c =>
      let cc := orZero c.top_10_concentration
      if cc > 0 then max w cc else w) 0

/-- Red flags pushed while iterating the chain list: per-chain extreme
concentration (> 85), then per-chain extreme Gini (> 0.9). -/
def chainsRF (chains : List ChainMetrics) : List RedFlag :=
  chains.foldl
    (fun acc c =>
      let cc := orZero c.top_10_concentration
      let g := orZero c.gini_coefficient
      acc ++
        (if cc > 0 ∧ cc > 85 then [.chainExtremeConc c.chain] else []) ++
        (if g > 0 ∧ g > 0.9 then [.chainGiniExtreme c.chain] else [])) []

/-- Tier-specific concentration thresholds. -/
structure ConcThresholds where
  excellent : ℚ
  good : ℚ
  moderate : ℚ
  high : ℚ
  extreme : ℚ
deriving DecidableEq, Repr

/-- Concentration threshold table by tier. -/
def concThresholds (tier : Tier) : ConcThresholds :=
  match tier with
  | .mega | .large => ⟨20, 35, 50, 65, 80⟩
  | .mid => ⟨25, 40, 55, 70, 85⟩
  | .small | .micro => ⟨30, 45, 60, 75, 90⟩

/-- Concentration ladder (section 2 of `scoreOnchain`); skipped entirely
when the concentration in use is 0. -/
def concAdj (tier : Tier) (conc : ℚ) : ℚ :=
  if conc > 0 then
    let t := concThresholds tier
    if conc < t.excellent then 1.8
    else if conc < t.good then 1.2
    else if conc < t.moderate then 0.5
    else if conc < t.high then -0.4
    else if conc < t.extreme then -1.2
    else -2.2
  else 0

/-- Red flag pushed by the concentration ladder (at or above the
tier-specific extreme threshold). -/
def concRF (tier : Tier) (conc : ℚ) : List RedFlag :=
  if conc > 0 ∧ ¬ conc < (concThresholds tier).extreme then
    [.extremeConcentration]
  else []

/-- Absolute weekly-active-address ladder (section 3, tier-independent). -/
def activeAbsAdj (tA7 : ℚ) : ℚ :=
  if tA7 > 100000 then 2.5
  else if tA7 > 50000 then 2.2
  else if tA7 > 20000 then 1.8
  else if tA7 > 10000 then 1.5
  else if tA7 > 5000 then 1.2
  else if tA7 > 1000 then 0.8
  else if tA7 > 500 then 0.4
  else if tA7 > 100 then 0.1
  else if tA7 > 20 then -0.3
  else if tA7 > 5 then -0.7
  else if tA7 > 0 then -1.2
  else 0

/-- Red flag pushed by the absolute-activity ladder (0 < active ≤ 5:
near-zero activity). -/
def activeAbsRF (tA7 : ℚ) : List RedFlag :=
  if tA7 > 5 then [] else if tA7 > 0 then [.nearZeroActivity] else []

/-- Tier-specific active-ratio thresholds. -/
structure ActiveThresholds where
  excellent : ℚ
  good : ℚ
  fair : ℚ
  low : ℚ
deriving DecidableEq, Repr

/-- Active-ratio threshold table by tier. -/
def activeThresholds (tier : Tier) : ActiveThresholds :=
  match tier with
  | .mega | .large => ⟨15, 8, 4, 2⟩
  | .mid => ⟨20, 10, 5, 2⟩
  | .small | .micro => ⟨25, 12, 6, 3⟩

/-- Active-ratio ladder (section 3 continued); skipped when the ratio is
0. -/
def activeRateAdj (tier : Tier) (r : ℚ) : ℚ :=
  if r > 0 then
    let t := activeThresholds tier
    if r ≥ t.excellent then 1.5
    else if r ≥ t.good then 1
    else if r ≥ t.fair then 0.5
    else if r ≥ t.low then 0
    else if r ≥ 1 then -0.2
    else -0.6
  else 0

/-- Retention ladder (section 4); requires both activity windows
positive. -/
def retentionAdj (tA7 tA30 : ℚ) : ℚ :=
  if tA7 > 0 ∧ tA30 > 0 then
    let ret := tA7 / tA30 * 100
    if ret > 60 then 1.8
    else if ret > 45 then 1.4
    else if ret > 30 then 1
    else if ret > 20 then 0.6
    else if ret > 15 then 0.2
    else if ret > 10 then 0
    else if ret > 5 then -0.3
    else -0.7
  else 0

/-- Daily-transfer ladder (section 5). -/
def transfersAdj (t24 : ℚ) : ℚ :=
  if t24 > 20000 then 1.5
  else if t24 > 10000 then 1.2
  else if t24 > 5000 then 0.9
  else if t24 > 1000 then 0.6
  else if t24 > 500 then 0.3
  else if t24 > 100 then 0.1
  else if t24 > 50 then 0
  else if t24 > 10 then -0.3
  else if t24 > 0 then -0.7
  else 0

/-- Transactions-per-user ladder (section 5 continued). -/
def txPerUserAdj (tA7 t7 : ℚ) : ℚ :=
  if tA7 > 0 ∧ t7 > 0 then
    let x := t7 / tA7
    if x > 20 then 0.6 else if x > 10 then 0.3 else 0
  else 0

/-- Multi-chain deployment bonus (section 6). -/
def multichainAdj (isM : Bool) (cc : ℚ) : ℚ :=
  if isM ∧ cc > 1 then
    if cc ≥ 6 then 1.5
    else if cc ≥ 4 then 1.2
    else if cc ≥ 3 then 0.8
    else 0.4
  else 0

/-- Minimum of a list (used for `Math.min(...holderDist)` over a
non-empty positive list). -/
def listMin : List ℚ → ℚ
  | [] => 0
  | x :: xs => xs.foldl min x

/-- Maximum of a list (used for `Math.max(...holderDist)` over a
non-empty positive list). -/
def listMax : List ℚ → ℚ
  | [] => 0
  | x :: xs => xs.foldl max x

/-- Chain-balance bonus (section 6 continued): applies inside the
multi-chain branch when more than one chain reports positive holders. -/
def balanceAdj (isM : Bool) (cc : ℚ) (chains : List ChainMetrics) : ℚ :=
  if isM ∧ cc > 1 ∧ chains.length > 1 then
    let hd := (chains.map (fun c => orZero c.total_holders)).filter (fun h => 0 < h)
    if hd.length > 1 then
      let bal := listMin hd / listMax hd
      if bal > 0.4 then 0.6 else if bal > 0.2 then 0.3 else 0
    else 0
  else 0

/-- Month-over-month address-growth ladder (section 7; only when the
field is present). -/
def growthAdj (g? : Option ℚ) : ℚ :=
  match g? with
  | none => 0
  | some g =>
      if g > 100 then 2.5
      else if g > 50 then 2
      else if g > 25 then 1.5
      else if g > 10 then 1
      else if g > 5 then 0.5
      else if g > 0 then 0.2
      else if g > -5 then 0
      else if g > -15 then -0.6
      else if g > -30 then -1.5
      else -2.5

/-- Red flags pushed by the growth ladder. -/
def growthRF (g? : Option ℚ) : List RedFlag :=
  match g? with
  | none => []
  | some g =>
      if g > -15 then []
      else if g > -30 then [.sharpDecline]
      else [.collapsing]

/-- Weekly TVL-change ladder (section 7 continued). -/
def tvlAdj (t? : Option ℚ) : ℚ :=
  match t? with
  | none => 0
  | some t =>
      if t > 50 then 2
      else if t > 25 then 1.5
      else if t > 10 then 1
      else if t > 0 then 0.4
      else if t > -10 then 0
      else if t > -25 then -0.6
      else if t > -40 then -1.5
      else -2.5

/-- Red flag pushed by the TVL ladder (crash below -40%). -/
def tvlRF (t? : Option ℚ) : List RedFlag :=
  match t? with
  | none => []
  | some t => if t > -40 then [] else [.tvlCrash]

/-- DAU/MAU ladder (section 7 continued). -/
def dauAdj (r? : Option ℚ) : ℚ :=
  match r? with
  | none => 0
  | some r =>
      if r > 50 then 2
      else if r > 40 then 1.5
      else if r > 30 then 1
      else if r > 20 then 0.6
      else if r > 12 then 0.2
      else if r > 5 then 0
      else -0.5

/-- Lookup of the primary chain (`chains[onchainData.chain_info?.primary]`). -/
def primaryChain (d : OnchainData) : Option ChainMetrics :=
  match d.chain_info with
  | some ci =>
      match ci.primary with
      | some p => d.chains.find? (fun c => c.chain = p)
      | none => none
  | none => none

/-- Data-quality score penalty (section 8): -0.5 only in the low branch. -/
def dqAdj (pc : Option ChainMetrics) : ℚ :=
  match pc with
  | none => 0
  | some c =>
      let rel := c.reliability.getD ""
      let conf := c.activity_confidence.getD ""
      if rel = "high" ∧ conf = "high" then 0
      else if rel = "high" ∨ conf = "high" then 0
      else if rel = "medium" ∨ conf = "medium" then 0
      else -0.5

/-- Data-quality tag (section 8); stays "unknown" when there is no
primary chain. -/
def dqTag (pc : Option ChainMetrics) : String :=
  match pc with
  | none => "unknown"
  | some c =>
      let rel := c.reliability.getD ""
      let conf := c.activity_confidence.getD ""
      if rel = "high" ∧ conf = "high" then "high"
      else if rel = "high" ∨ conf = "high" then "medium-high"
      else if rel = "medium" ∨ conf = "medium" then "medium"
      else "low"

/-- Ghost-token / near-dead overlay delta (section 9). -/
def ghostAdj (tH tA7 t24 : ℚ) : ℚ :=
  if tH < 30 ∧ tA7 < 3 then -3
  else if tH < 100 ∧ tA7 < 5 ∧ t24 < 3 then -2
  else 0

/-- Ghost-token / near-dead overlay red flags (section 9). -/
def ghostRF (tH tA7 t24 : ℚ) : List RedFlag :=
  if tH < 30 ∧ tA7 < 3 then [.ghostToken]
  else if tH < 100 ∧ tA7 < 5 ∧ t24 < 3 then [.nearDead]
  else []

/-- Tier-adjusted whale-dominance limits (critical, high). -/
def whaleLimits (tier : Tier) : ℚ × ℚ :=
  match tier with
  | .micro => (95, 85)
  | .small => (90, 80)
  | _ => (85, 75)

/-- Whale-dominance overlay delta (section 9 continued). -/
def whaleAdj (tier : Tier) (conc tH : ℚ) : ℚ :=
  let l := whaleLimits tier
  if conc > l.1 ∧ tH < 1000 then -2.5
  else if conc > l.2 ∧ tH < 2000 then -1.5
  else 0

/-- Whale-dominance overlay red flags. -/
def whaleRF (tier : Tier) (conc tH : ℚ) : List RedFlag :=
  let l := whaleLimits tier
  if conc > l.1 ∧ tH < 1000 then [.whaleControlled]
  else if conc > l.2 ∧ tH < 2000 then [.whaleDominance]
  else []

/-- Abandonment overlay delta (section 9, non-micro tiers only). -/
def abandonedAdj (tier : Tier) (tH rate : ℚ) : ℚ :=
  if tier ≠ .micro ∧ tH > 2000 ∧ rate < 0.5 then -2
  else if tier ≠ .micro ∧ tH > 5000 ∧ rate < 1 then -1.2
  else 0

/-- Abandonment overlay red flag (the second branch is a warning, not a
red flag). -/
def abandonedRF (tier : Tier) (tH rate : ℚ) : List RedFlag :=
  if tier ≠ .micro ∧ tH > 2000 ∧ rate < 0.5 then [.likelyAbandoned]
  else []

/-- Tier tag of the result:
`tier.charAt(0).toUpperCase() + tier.slice(1) + " Cap"` (spelled out on
the character list so that it evaluates by `decide`). -/
def capCap (tier : String) : String :=
  match tier.data with
  | [] => " Cap"
  | c :: rest => String.mk (c.toUpper :: rest) ++ " Cap"

/-- `ScoringEngine.scoreOnchain` (the tier-aware revision): base score 5,
plus the additive section deltas above, clamped to [0, 10] after rounding
to two decimals.  All sections are additive and read only the aggregates
fixed up front, mirroring the sequential `score +=` chain of the source. -/
def scoreOnchain (d : OnchainData) : OnchainResult :=
  let tH := aggHolders d
  let tA7 := aggActive7 d
  let tA30 := aggActive30 d
  let t24 := orZero d.total_transfers_24h
  let t7 := orZero d.total_transfers_7d
  let tier := classifyTier tH
  let worst := worstConc d.chains
  let conc := if worst > 0 then worst else orZero d.weighted_concentration
  let rate := if tH > 0 then tA7 / tH * 100 else 0
  let isM := (d.chain_info.map (fun ci => ci.is_multichain)).getD false
  let cc :=
    match d.chain_count with
    | some q => if q = 0 then (d.chains.length : ℚ) else q
    | none => (d.chains.length : ℚ)
  let raw := 5 + holderAdj tier tH + concAdj tier conc + activeAbsAdj tA7 +
    activeRateAdj tier rate + retentionAdj tA7 tA30 + transfersAdj t24 +
    txPerUserAdj tA7 t7 + multichainAdj isM cc + balanceAdj isM cc d.chains +
    growthAdj d.address_growth_mom + tvlAdj d.tvl_change_7d +
    dauAdj d.daily_active_ratio + dqAdj (primaryChain d) +
    ghostAdj tH tA7 t24 + whaleAdj tier conc tH + abandonedAdj tier tH rate
  { score := clamp10 (round2 raw)
  , tier := capCap (tierName tier)
  , total_holders := tH
  , active_addresses_7d := tA7
  , active_addresses_30d := tA30
  , total_transfers_24h := t24
  , total_transfers_7d := t7
  , red_flags := holderRF tier tH ++ chainsRF d.chains ++ concRF tier conc ++
      activeAbsRF tA7 ++ growthRF d.address_growth_mom ++
      tvlRF d.tvl_change_7d ++ ghostRF tH tA7 t24 ++ whaleRF tier conc tH ++
      abandonedRF tier tH rate
  , data_quality := dqTag (primaryChain d) }

/-! ## Gini coefficient (`calculateGini` in the per-chain explorer
services; both copies in the sources are identical) -/

/-- The numerator loop of `calculateGini`:
`for i < n: numerator += (2*(i+1) - n - 1) * sorted[i]`. -/
def giniNum (l : List ℚ) : ℚ :=
  ∑ i ∈ Finset.range l.length,
    (2 * ((i : ℚ) + 1) - (l.length : ℚ) - 1) * l.getD i 0

/-- `calculateGini(balances)`: sort ascending (`sort((a, b) => a - b)`),
return 0 on an empty list or zero sum, otherwise the mean-difference
numerator divided by `n * sum`. -/
def calculateGini (balances : List ℚ) : ℚ :=
  if balances.length = 0 then 0
  else if (List.insertionSort (· ≤ ·) balances).sum = 0 then 0
  else
    giniNum (List.insertionSort (· ≤ ·) balances) /
      (((List.insertionSort (· ≤ ·) balances).length : ℚ) *
        (List.insertionSort (· ≤ ·) balances).sum)

/-! ## Cache layer and the analyze controller cache path -/

/-- Default report-cache TTL in seconds, from `src/config/index.js`:
`cacheTTL: parseInt(process.env.CACHE_TTL) || 3600` (default path). -/
def defaultCacheTTL : ℚ := 3600

/-- A cache entry: key, stored value, absolute expiry time. -/
structure CacheEntry (α : Type) where
  key : String
  value : α
  expiresAt : ℚ
deriving DecidableEq, Repr

/-- Modelled from the spec: the cache layer (`src/utils/cache.js` is not
among the sources; only its callers are).  Spec interface:
`Cache.set(key, report, ttlSeconds)` stores the report under the key,
expiring `ttlSeconds` after the write time. -/
def cacheSet {α : Type} (c : List (CacheEntry α)) (k : String) (v : α)
    (now ttl : ℚ) : List (CacheEntry α) :=
  ⟨k, v, now + ttl⟩ :: c.filter (fun e => e.key ≠ k)

/-- Modelled from the spec: `Cache.get(key)` returns the stored report
while the entry is unexpired, and `null` otherwise. -/
def cacheGet {α : Type} (c : List (CacheEntry α)) (k : String) (now : ℚ) :
    Option α :=
  match c.find? (fun e => e.key = k) with
  | some e => if now < e.expiresAt then some e.value else none
  | none => none

/-- Model of `ticker.toUpperCase()` (per-character upper-casing). -/
def jsToUpper (s : String) : String :=
  String.mk (s.data.map Char.toUpper)

/-- The cache write of `analyzeCoin` in `analyzer.controller.js`:
`cache.set(`analysis:${ticker.toUpperCase()}`, result)` — no TTL argument,
so the configured default TTL applies. -/
def controllerSet {α : Type} (c : List (CacheEntry α)) (ticker : String)
    (result : α) (now : ℚ) : List (CacheEntry α) :=
  cacheSet c ("analysis:" ++ jsToUpper ticker) result now defaultCacheTTL

/-- Shape of the cache-hit response of `analyzeCoin`: the spread of the
cached report plus the two injected fields. -/
structure HitResponse (α : Type) where
  report : α
  from_cache : Bool
  cache_expires_in : String
deriving DecidableEq, Repr

/-- The cache-hit branch of `analyzeCoin`:
`res.json({ ...cachedResult, from_cache: true, cache_expires_in: '1 hour' })`.
The spread copies every field of the prior report verbatim. -/
def controllerCacheHit {α : Type} (cached : α) : HitResponse α :=
  ⟨cached, true, "1 hour"⟩

/-! ## Concrete inputs used by counterexamples and witnesses -/

/-- On-chain input with an empty chain list and no root-level totals. -/
def emptyOnchain : OnchainData :=
  ⟨none, none, none, none, none, [], none, none, none, none, none, none⟩

/-- On-chain input with 20 holders and 1 weekly active address. -/
def ghost20 : OnchainData :=
  ⟨some 20, some 1, none, none, none, [], none, none, none, none, none, none⟩

/-! ## Claims -/

/-- C1: for every input to each of the four component scorers — including
extreme inputs such as negative supply, zero holders, zero total supply or
zero market cap (NaN-inducing divisions, modelled by `JsNum`) — the
returned score field satisfies 0 ≤ score ≤ 10. -/
theorem c1_component_scores_clamped :
    ∀ (c : CoinData) (l : LiquidityData) (s : SocialData) (o : OnchainData),
      (0 ≤ (scoreTokenomics c).score ∧ (scoreTokenomics c).score ≤ 10) ∧
      (0 ≤ (scoreLiquidity l).score ∧ (scoreLiquidity l).score ≤ 10) ∧
      (0 ≤ (scoreSocial s).score ∧ (scoreSocial s).score ≤ 10) ∧
      (0 ≤ (scoreOnchain o).score ∧ (scoreOnchain o).score ≤ 10) := by
  intro c l s o
  exact ⟨⟨clamp10_nonneg _, clamp10_le_ten _⟩,
    ⟨clamp10_nonneg _, clamp10_le_ten _⟩,
    ⟨clamp10_nonneg _, clamp10_le_ten _⟩,
    ⟨clamp10_nonneg _, clamp10_le_ten _⟩⟩

/-- C2 counterexample: a weights map summing to 0.94 does not raise any
configuration error — the constructor succeeds and scoring proceeds
(`calculateOverallScore` returns 4.7 on all-5 component scores). -/
theorem c2_counterexample :
    ¬ |weightSum ⟨0.24, 0.25, 0.20, 0.25⟩ - 1| ≤ 0.01 ∧
    mkScoringEngine ⟨0.24, 0.25, 0.20, 0.25⟩ defaultThresholds =
      Except.ok ⟨⟨0.24, 0.25, 0.20, 0.25⟩, defaultThresholds⟩ ∧
    calculateOverallScore ⟨⟨0.24, 0.25, 0.20, 0.25⟩, defaultThresholds⟩
      ⟨5, 5, 5, 5⟩ = 4.7 := by
  refine ⟨?_, rfl, ?_⟩
  · rw [not_le]
    rw [show |weightSum ⟨0.24, 0.25, 0.20, 0.25⟩ - 1| = |(-0.06 : ℚ)| by
      norm_num [weightSum]]
    rw [abs_neg, abs_of_nonneg (by norm_num)]
    norm_num
  · norm_num [calculateOverallScore, overallRaw, round2, round_eq]

/-- C2 amended: the `ScoringEngine` constructor performs no weight
validation at all — construction succeeds for every weights map, whatever
its sum, and no configuration error is ever raised; the default configured
weights happen to sum to exactly 1.0. -/
theorem c2_no_weight_validation :
    (∀ (w : Weights) (t : Thresholds), mkScoringEngine w t = Except.ok ⟨w, t⟩) ∧
    weightSum defaultWeights = 1 := by
  exact ⟨fun w t => rfl, by norm_num [weightSum, defaultWeights]⟩

/-- C3 counterexample: increasing the tokenomics component by 0.01 changes
the returned overall score by 0, not by 0.01 × 0.30 = 0.003, because the
weighted sum is rounded to two decimals before being returned. -/
theorem c3_counterexample :
    calculateOverallScore defaultEngine ⟨0.01, 0, 0, 0⟩ -
      calculateOverallScore defaultEngine ⟨0, 0, 0, 0⟩ = 0 ∧
    (0.01 * defaultWeights.tokenomics : ℚ) ≠ 0 := by
  constructor
  · norm_num [calculateOverallScore, overallRaw, round2, round_eq,
      defaultEngine, defaultWeights]
  · norm_num [defaultWeights]

/-- C3 amended: the weighted sum computed inside `calculateOverallScore`
is exactly linear in each component (changing one component by δ changes
it by exactly δ times that component's weight), and the returned value is
that weighted sum rounded to two decimals — so the returned score need
not change by exactly δ × weight. -/
theorem c3_overall_linear_before_rounding :
    (∀ (w : Weights) (s : Scores) (d : ℚ),
      overallRaw w { s with tokenomics := s.tokenomics + d } - overallRaw w s =
        d * w.tokenomics ∧
      overallRaw w { s with liquidity := s.liquidity + d } - overallRaw w s =
        d * w.liquidity ∧
      overallRaw w { s with social := s.social + d } - overallRaw w s =
        d * w.social ∧
      overallRaw w { s with onchain := s.onchain + d } - overallRaw w s =
        d * w.onchain) ∧
    (∀ (e : ScoringEngine) (s : Scores),
      calculateOverallScore e s = round2 (overallRaw e.weights s)) := by
  constructor
  · intro w s d
    refine ⟨?_, ?_, ?_, ?_⟩ <;> simp only [overallRaw] <;> ring
  · intro e s
    rfl

/-- C4: with the default configured thresholds (green 7.0, yellow 5.0),
`classifyScore` returns GREEN iff score ≥ 7.0, YELLOW iff 5.0 ≤ score
< 7.0, and RED otherwise; in particular 7.0 → GREEN, 6.999 → YELLOW,
5.0 → YELLOW, 4.999 → RED. -/
theorem c4_classification_boundaries :
    (∀ s : ℚ,
      ((classifyScore defaultEngine s).level = Level.GREEN ↔ 7 ≤ s) ∧
      ((classifyScore defaultEngine s).level = Level.YELLOW ↔ 5 ≤ s ∧ s < 7) ∧
      ((classifyScore defaultEngine s).level = Level.RED ↔ s < 5)) ∧
    (classifyScore defaultEngine 7).level = Level.GREEN ∧
    (classifyScore defaultEngine 6.999).level = Level.YELLOW ∧
    (classifyScore defaultEngine 5).level = Level.YELLOW ∧
    (classifyScore defaultEngine 4.999).level = Level.RED := by
  have hg : defaultEngine.thresholds.green = 7 := by
    norm_num [defaultEngine, defaultThresholds]
  have hy : defaultEngine.thresholds.yellow = 5 := by
    norm_num [defaultEngine, defaultThresholds]
  refine ⟨?_, ?_, ?_, ?_, ?_⟩
  · intro s
    unfold classifyScore
    rw [hg, hy]
    refine ⟨?_, ?_, ?_⟩ <;> split_ifs with h1 h2 <;>
      simp_all <;> first | linarith | (constructor <;> linarith)
  · norm_num [classifyScore, hg, hy]
  · norm_num [classifyScore, hg, hy]
  · norm_num [classifyScore, hg, hy]
  · norm_num [classifyScore, hg, hy]

/-- Helper: the tier rank of a classified holder count as a plain
threshold chain. -/
theorem tierRank_classifyTier (h : ℚ) :
    tierRank (classifyTier h) =
      if 1000000 < h then 4
      else if 100000 < h then 3
      else if 10000 < h then 2
      else if 1000 < h then 1
      else 0 := by
  unfold classifyTier
  split_ifs <;> rfl

/-- C5: holder-tier classification is a pure monotonic step function of
holder count with breakpoints mega > 1,000,000; large > 100,000; mid >
10,000; small > 1,000; else micro; 1,000,001 holders classify as mega,
exactly 1,000,000 as large, and 0 as micro. -/
theorem c5_tier_classification :
    (∀ h : ℚ,
      (tierName (classifyTier h) = "mega" ↔ 1000000 < h) ∧
      (tierName (classifyTier h) = "large" ↔ 100000 < h ∧ h ≤ 1000000) ∧
      (tierName (classifyTier h) = "mid" ↔ 10000 < h ∧ h ≤ 100000) ∧
      (tierName (classifyTier h) = "small" ↔ 1000 < h ∧ h ≤ 10000) ∧
      (tierName (classifyTier h) = "micro" ↔ h ≤ 1000)) ∧
    (∀ a b : ℚ, a ≤ b → tierRank (classifyTier a) ≤ tierRank (classifyTier b)) ∧
    tierName (classifyTier 1000001) = "mega" ∧
    tierName (classifyTier 1000000) = "large" ∧
    tierName (classifyTier 0) = "micro" := by
  have hname : ∀ t : Tier,
      (tierName t = "mega" ↔ t = .mega) ∧ (tierName t = "large" ↔ t = .large) ∧
      (tierName t = "mid" ↔ t = .mid) ∧ (tierName t = "small" ↔ t = .small) ∧
      (tierName t = "micro" ↔ t = .micro) := by
    intro t
    cases t <;> exact ⟨by decide, by decide, by decide, by decide, by decide⟩
  refine ⟨?_, ?_, ?_, ?_, ?_⟩
  · intro h
    refine ⟨?_, ?_, ?_, ?_, ?_⟩
    · rw [(hname _).1]
      unfold classifyTier
      split_ifs <;> simp_all <;> linarith
    · rw [(hname _).2.1]
      unfold classifyTier
      split_ifs <;> simp_all <;>
        first | (constructor <;> linarith) | (intro hc; linarith) |
          (rintro ⟨hc1, hc2⟩; linarith)
    · rw [(hname _).2.2.1]
      unfold classifyTier
      split_ifs <;> simp_all <;>
        first | (constructor <;> linarith) | (intro hc; linarith) |
          (rintro ⟨hc1, hc2⟩; linarith)
    · rw [(hname _).2.2.2.1]
      unfold classifyTier
      split_ifs <;> simp_all <;>
        first | (constructor <;> linarith) | (intro hc; linarith) |
          (rintro ⟨hc1, hc2⟩; linarith)
    · rw [(hname _).2.2.2.2]
      unfold classifyTier
      split_ifs <;> simp_all <;> linarith
  · intro a b hab
    rw [tierRank_classifyTier, tierRank_classifyTier]
    split_ifs <;> first | (exfalso; linarith) | norm_num
  · norm_num [classifyTier, tierName]
  · norm_num [classifyTier, tierName]
  · norm_num [classifyTier, tierName]

/-- C5 witness: monotonicity instantiated at 0 ≤ 1500000. -/
theorem c5_witness :
    (0 : ℚ) ≤ 1500000 ∧
    tierRank (classifyTier 0) ≤ tierRank (classifyTier 1500000) :=
  ⟨by norm_num, c5_tier_classification.2.1 0 1500000 (by norm_num)⟩

/-- C6 counterexample: on an input with an empty chain list and no root
totals, the returned tier tag is "Micro Cap" (internal tier "micro"), not
"unknown" — only the `data_quality` field is "unknown". -/
theorem c6_counterexample :
    (scoreOnchain emptyOnchain).tier = "Micro Cap" ∧
    (scoreOnchain emptyOnchain).tier ≠ "Unknown Cap" ∧
    tierName (classifyTier (aggHolders emptyOnchain)) = "micro" ∧
    tierName (classifyTier (aggHolders emptyOnchain)) ≠ "unknown" ∧
    (scoreOnchain emptyOnchain).data_quality = "unknown" := by
  have h0 : aggHolders emptyOnchain = 0 := by
    norm_num [aggHolders, emptyOnchain, orZero]
  have ht : classifyTier (0 : ℚ) = Tier.micro := by norm_num [classifyTier]
  refine ⟨?_, ?_, ?_, ?_, ?_⟩
  · show capCap (tierName (classifyTier (aggHolders emptyOnchain))) = "Micro Cap"
    rw [h0, ht]; decide
  · show capCap (tierName (classifyTier (aggHolders emptyOnchain))) ≠ "Unknown Cap"
    rw [h0, ht]; decide
  · rw [h0, ht]; decide
  · rw [h0, ht]; decide
  · show dqTag (primaryChain emptyOnchain) = "unknown"
    rfl

/-- C6 amended: for every on-chain input with an empty chain list and
zero root totals, the scorer returns an all-zero aggregate whose tier is
tagged micro ("Micro Cap") and whose data-quality tag — not its tier — is
"unknown". -/
theorem c6_empty_input_aggregate :
    ∀ d : OnchainData, d.chains = [] →
      orZero d.total_holders = 0 →
      orZero d.active_addresses_7d = 0 →
      orZero d.active_addresses_30d = 0 →
      (scoreOnchain d).total_holders = 0 ∧
      (scoreOnchain d).active_addresses_7d = 0 ∧
      (scoreOnchain d).active_addresses_30d = 0 ∧
      (scoreOnchain d).tier = "Micro Cap" ∧
      (scoreOnchain d).data_quality = "unknown" := by
  intro d hc h1 h2 h3
  have hagg : aggHolders d = 0 := by simp [aggHolders, hc, h1]
  have hagg7 : aggActive7 d = 0 := by simp [aggActive7, hc, h1, h2]
  have hagg30 : aggActive30 d = 0 := by simp [aggActive30, hc, h1, h3]
  have hpc : primaryChain d = none := by
    unfold primaryChain
    cases d.chain_info with
    | none => rfl
    | some ci =>
        rcases ci with ⟨im, pr⟩
        rcases pr with _ | p
        · rfl
        · simp [hc]
  have ht : classifyTier (aggHolders d) = Tier.micro := by
    rw [hagg]; norm_num [classifyTier]
  refine ⟨?_, ?_, ?_, ?_, ?_⟩
  · show aggHolders d = 0
    exact hagg
  · show aggActive7 d = 0
    exact hagg7
  · show aggActive30 d = 0
    exact hagg30
  · show capCap (tierName (classifyTier (aggHolders d))) = "Micro Cap"
    rw [ht]; decide
  · show dqTag (primaryChain d) = "unknown"
    rw [hpc]
    rfl

/-- C6 witness: the amended statement applied to the concrete all-empty
input. -/
theorem c6_witness :
    emptyOnchain.chains = [] ∧
    orZero emptyOnchain.total_holders = 0 ∧
    ((scoreOnchain emptyOnchain).total_holders = 0 ∧
     (scoreOnchain emptyOnchain).active_addresses_7d = 0 ∧
     (scoreOnchain emptyOnchain).active_addresses_30d = 0 ∧
     (scoreOnchain emptyOnchain).tier = "Micro Cap" ∧
     (scoreOnchain emptyOnchain).data_quality = "unknown") :=
  ⟨rfl, rfl, c6_empty_input_aggregate emptyOnchain rfl rfl rfl rfl⟩

/-- C7 counterexample: the report cache does not use a 30-minute TTL — a
report written by the controller at time 0 is still returned 1900 seconds
later (past 30 minutes), because the configured default TTL is 3600
seconds, not 1800. -/
theorem c7_counterexample :
    cacheGet (controllerSet ([] : List (CacheEntry ℚ)) "btc" 7 0)
      "analysis:BTC" 1900 = some 7 ∧
    ¬ (1900 : ℚ) < 30 * 60 ∧
    defaultCacheTTL ≠ 30 * 60 := by
  refine ⟨?_, by norm_num, by norm_num [defaultCacheTTL]⟩
  unfold controllerSet cacheSet cacheGet
  rw [List.find?_cons_of_pos _ (by decide)]
  show (if (1900 : ℚ) < 0 + defaultCacheTTL then some (7 : ℚ) else none) =
    some 7
  rw [if_pos (by norm_num [defaultCacheTTL])]

/-- C7 amended: `analyzeCoin` caches the report under key
`analysis:TICKER` with the configured default TTL of 3600 seconds (one
hour, matching the `cache_expires_in: "1 hour"` it reports), not 30
minutes; any read of that key strictly within the TTL returns the entire
prior report verbatim, with `from_cache=true` (and `cache_expires_in`)
added by the cache-hit branch. -/
theorem c7_cache_roundtrip :
    ∀ (α : Type) (c : List (CacheEntry α)) (ticker : String) (r : α)
      (now t : ℚ), t < defaultCacheTTL →
      cacheGet (controllerSet c ticker r now)
        ("analysis:" ++ jsToUpper ticker) (now + t) = some r ∧
      controllerCacheHit r = ⟨r, true, "1 hour"⟩ ∧
      defaultCacheTTL = 3600 := by
  intro α c ticker r now t ht
  refine ⟨?_, rfl, rfl⟩
  unfold controllerSet cacheSet cacheGet
  rw [List.find?_cons_of_pos _ (by simp)]
  show (if now + t < now + defaultCacheTTL then some r else none) = some r
  rw [if_pos (by linarith)]

/-- C7 witness: the round-trip applied at a concrete report, key and
time. -/
theorem c7_witness :
    (1000 : ℚ) < defaultCacheTTL ∧
    cacheGet (controllerSet ([] : List (CacheEntry ℚ)) "btc" 7 0)
      ("analysis:" ++ jsToUpper "btc") (0 + 1000) = some 7 :=
  ⟨by norm_num [defaultCacheTTL],
    (c7_cache_roundtrip ℚ [] "btc" 7 0 1000 (by norm_num [defaultCacheTTL])).1⟩

/-- Delta predicted by the claim's wording for the primary-exchange
volume-share bands, read as the partition 30–80% → +2, ≥ 80% → +1,
10–30% → +0.5, < 10% → −1.5 (definition written from the spec's words,
for comparison with `binanceAdjust` from the source). -/
def claimC8Delta (r : ℚ) : ℚ :=
  if 0.3 ≤ r ∧ r < 0.8 then 2
  else if 0.8 ≤ r then 1
  else if 0.1 ≤ r then 0.5
  else -1.5

/-- C8 counterexample: at a dominant-exchange share of exactly 10%
(binance volume 1,000,000 of 10,000,000 total) the code applies −1.5 (the
wash-trading branch, which uses a strict `> 0.1` comparison), while the
claim's 10–30% band predicts +0.5. -/
theorem c8_counterexample :
    jsDiv 1000000 10000000 = JsNum.fin 0.1 ∧
    binanceAdjust (jsDiv 1000000 10000000) = -1.5 ∧
    claimC8Delta 0.1 = 0.5 ∧
    binanceAdjust (jsDiv 1000000 10000000) ≠ claimC8Delta 0.1 := by
  have h1 : jsDiv 1000000 10000000 = JsNum.fin 0.1 := by
    norm_num [jsDiv]
  have h2 : binanceAdjust (JsNum.fin 0.1) = -1.5 := by
    norm_num [binanceAdjust, jsGt, jsLt, jsGe]
  have h3 : claimC8Delta 0.1 = 0.5 := by
    norm_num [claimC8Delta]
  exact ⟨h1, by rw [h1]; exact h2, h3, by rw [h1, h2, h3]; norm_num⟩

/-- C8 amended: the volume-share ladder is the non-monotonic band with
strict boundaries 30% < share < 80% → +2; share ≥ 80% → +1;
10% < share ≤ 30% → +0.5; share ≤ 10% (including exactly 10%, and the
NaN share of a zero-volume input) → −1.5 with the wash-trading flag; and
`scoreLiquidity` is exactly the base 5 plus the three ladder deltas,
rounded and clamped. -/
theorem c8_binance_band_boundaries :
    ∀ r : ℚ,
      (0.3 < r ∧ r < 0.8 → binanceAdjust (.fin r) = 2) ∧
      (0.8 ≤ r → binanceAdjust (.fin r) = 1) ∧
      (0.1 < r ∧ r ≤ 0.3 → binanceAdjust (.fin r) = 0.5) ∧
      (r ≤ 0.1 → binanceAdjust (.fin r) = -1.5 ∧
        binanceFlagStr (.fin r) =
          "Very low Binance volume (<10%) - Wash trading risk") ∧
      binanceAdjust JsNum.nan = -1.5 ∧
      (∀ l : LiquidityData,
        (scoreLiquidity l).score =
          clamp10 (round2 (5 + (volAdj l.volume_to_market_cap).1 +
            binanceAdjust (jsDiv l.binance_volume l.total_volume) +
            absVolAdj l.total_volume))) := by
  intro r
  refine ⟨?_, ?_, ?_, ?_, by norm_num [binanceAdjust, jsGt, jsLt, jsGe],
    fun l => rfl⟩
  · rintro ⟨ha, hb⟩
    unfold binanceAdjust jsGt jsLt
    simp only [Bool.and_eq_true, decide_eq_true_eq]
    rw [if_pos ⟨ha, hb⟩]
  · intro ha
    unfold binanceAdjust jsGt jsLt jsGe
    simp only [Bool.and_eq_true, decide_eq_true_eq]
    rw [if_neg (by rintro ⟨h1, h2⟩; linarith), if_pos ha]
  · rintro ⟨ha, hb⟩
    unfold binanceAdjust jsGt jsLt jsGe
    simp only [Bool.and_eq_true, decide_eq_true_eq]
    rw [if_neg (by rintro ⟨h1, h2⟩; linarith),
      if_neg (by intro h1; linarith), if_pos ha]
  · intro ha
    constructor
    · unfold binanceAdjust jsGt jsLt jsGe
      simp only [Bool.and_eq_true, decide_eq_true_eq]
      rw [if_neg (by rintro ⟨h1, h2⟩; linarith),
        if_neg (by intro h1; linarith), if_neg (by intro h1; linarith)]
    · unfold binanceFlagStr jsGt jsLt jsGe
      simp only [Bool.and_eq_true, decide_eq_true_eq]
      rw [if_neg (by rintro ⟨h1, h2⟩; linarith),
        if_neg (by intro h1; linarith), if_neg (by intro h1; linarith)]

/-- C8 witness: the ideal band applied at a 50% share. -/
theorem c8_witness :
    ((0.3 : ℚ) < 0.5 ∧ (0.5 : ℚ) < 0.8) ∧
    binanceAdjust (JsNum.fin 0.5) = 2 :=
  ⟨⟨by norm_num, by norm_num⟩,
    (c8_binance_band_boundaries 0.5).1 ⟨by norm_num, by norm_num⟩⟩

/-- C9: whenever the aggregated totals satisfy holders < 30 and weekly
active addresses < 3, the on-chain scorer applies the −3 ghost-token
delta and pushes the ghost-token red flag; in particular, the input with
holders = 20 and active7d = 1 yields a red-flags list containing the
ghost-token marker and a final on-chain score ≤ 2.0. -/
theorem c9_ghost_token :
    (∀ d : OnchainData, aggHolders d < 30 → aggActive7 d < 3 →
      ghostAdj (aggHolders d) (aggActive7 d) (orZero d.total_transfers_24h) =
        -3 ∧
      RedFlag.ghostToken ∈ (scoreOnchain d).red_flags) ∧
    RedFlag.ghostToken ∈ (scoreOnchain ghost20).red_flags ∧
    (scoreOnchain ghost20).score ≤ 2 := by
  have hmem : ∀ d : OnchainData, aggHolders d < 30 → aggActive7 d < 3 →
      RedFlag.ghostToken ∈ (scoreOnchain d).red_flags := by
    intro d h1 h2
    have hg : RedFlag.ghostToken ∈
        ghostRF (aggHolders d) (aggActive7 d) (orZero d.total_transfers_24h) := by
      unfold ghostRF
      rw [if_pos ⟨h1, h2⟩]
      exact List.mem_singleton.mpr rfl
    show RedFlag.ghostToken ∈ (scoreOnchain d).red_flags
    simp only [scoreOnchain, List.mem_append]
    tauto
  have h20a : aggHolders ghost20 < 30 := by
    norm_num [aggHolders, ghost20, orZero]
  have h20b : aggActive7 ghost20 < 3 := by
    norm_num [aggActive7, aggHolders, ghost20, orZero]
  refine ⟨?_, hmem ghost20 h20a h20b, ?_⟩
  · intro d h1 h2
    refine ⟨?_, hmem d h1 h2⟩
    unfold ghostAdj
    rw [if_pos ⟨h1, h2⟩]
  · have : (scoreOnchain ghost20).score = 0 := by
      norm_num [scoreOnchain, aggHolders, aggActive7, aggActive30, orZero,
        classifyTier, holderAdj, concAdj, activeAbsAdj, activeRateAdj,
        retentionAdj, transfersAdj, txPerUserAdj, multichainAdj, balanceAdj,
        growthAdj, tvlAdj, dauAdj, dqAdj, primaryChain, ghostAdj, whaleAdj,
        whaleLimits, abandonedAdj, worstConc, concThresholds,
        activeThresholds, ghost20, clamp10_eq_ite, round2, round_eq]
    rw [this]
    norm_num

/-- C9 witness: the universal part applied to the concrete
20-holder input. -/
theorem c9_witness :
    aggHolders ghost20 < 30 ∧ aggActive7 ghost20 < 3 ∧
    (ghostAdj (aggHolders ghost20) (aggActive7 ghost20)
        (orZero ghost20.total_transfers_24h) = -3 ∧
      RedFlag.ghostToken ∈ (scoreOnchain ghost20).red_flags) :=
  ⟨by norm_num [aggHolders, ghost20, orZero],
   by norm_num [aggActive7, aggHolders, ghost20, orZero],
   c9_ghost_token.1 ghost20 (by norm_num [aggHolders, ghost20, orZero])
     (by norm_num [aggActive7, aggHolders, ghost20, orZero])⟩

/-- Helper: the indexed sum over a list's entries equals its sum. -/
theorem sum_range_getD (l : List ℚ) :
    ∑ i ∈ Finset.range l.length, l.getD i 0 = l.sum := by
  induction l with
  | nil => simp
  | cons a t ih =>
      rw [List.length_cons, Finset.sum_range_succ']
      simp only [List.getD_cons_succ, List.getD_cons_zero]
      rw [ih, List.sum_cons]
      ring

/-- Helper: peeling the head off the Gini numerator. -/
theorem giniNum_cons (a : ℚ) (t : List ℚ) :
    giniNum (a :: t) = giniNum t + t.sum - t.length * a := by
  unfold giniNum
  rw [List.length_cons, Finset.sum_range_succ']
  simp only [List.getD_cons_succ, List.getD_cons_zero]
  have h1 : ∀ i ∈ Finset.range t.length,
      (2 * (((i + 1 : ℕ) : ℚ) + 1) - ((t.length + 1 : ℕ) : ℚ) - 1) *
          t.getD i 0 =
        (2 * ((i : ℚ) + 1) - (t.length : ℚ) - 1) * t.getD i 0 + t.getD i 0 := by
    intro i hi
    push_cast
    ring
  rw [Finset.sum_congr rfl h1, Finset.sum_add_distrib, sum_range_getD]
  push_cast
  ring

/-- Helper: the Gini numerator of an ascending list is non-negative. -/
theorem giniNum_nonneg : ∀ {l : List ℚ}, l.Sorted (· ≤ ·) → 0 ≤ giniNum l := by
  intro l
  induction l with
  | nil => intro _; simp [giniNum]
  | cons a t ih =>
      intro hs
      rcases List.sorted_cons.mp hs with ⟨h1, h2⟩
      rw [giniNum_cons]
      have h3 : (t.length : ℚ) * a ≤ t.sum := by
        simpa [nsmul_eq_mul] using List.card_nsmul_le_sum t a h1
      have h4 := ih h2
      linarith

/-- Helper: the Gini numerator of a non-negative list is at most
(length − 1) times its sum. -/
theorem giniNum_le : ∀ {l : List ℚ}, (∀ x ∈ l, 0 ≤ x) →
    giniNum l ≤ ((l.length : ℚ) - 1) * l.sum := by
  intro l
  induction l with
  | nil => intro _; norm_num [giniNum]
  | cons a t ih =>
      intro h
      rw [giniNum_cons]
      have ha : 0 ≤ a := h a (List.mem_cons_self a t)
      have ih' := ih fun x hx => h x (List.mem_cons_of_mem a hx)
      have hn : (0 : ℚ) ≤ t.length := Nat.cast_nonneg t.length
      rw [List.length_cons, List.sum_cons]
      push_cast
      nlinarith [mul_nonneg hn ha]

/-- C10: `calculateGini` is total on lists of non-negative balances with
result in [0, 1]: it returns 0 for an empty list or a zero-sum list, and
otherwise its value is bounded by (n − 1)/n, which is less than 1. -/
theorem c10_gini_bounds :
    ∀ l : List ℚ, (∀ x ∈ l, 0 ≤ x) →
      (0 ≤ calculateGini l ∧ calculateGini l ≤ 1) ∧
      (l = [] → calculateGini l = 0) ∧
      (l.sum = 0 → calculateGini l = 0) ∧
      (l ≠ [] → l.sum ≠ 0 →
        calculateGini l ≤ ((l.length : ℚ) - 1) / l.length ∧
        ((l.length : ℚ) - 1) / l.length < 1) := by
  intro l h
  by_cases hnil : l.length = 0
  · have hl : l = [] := List.length_eq_zero.mp hnil
    subst hl
    refine ⟨⟨by norm_num [calculateGini], by norm_num [calculateGini]⟩,
      fun _ => by norm_num [calculateGini],
      fun _ => by norm_num [calculateGini],
      fun hne _ => absurd rfl hne⟩
  · have hperm : (List.insertionSort (· ≤ ·) l).Perm l :=
      List.perm_insertionSort _ l
    have hlen : (List.insertionSort (· ≤ ·) l).length = l.length :=
      hperm.length_eq
    have hsum : (List.insertionSort (· ≤ ·) l).sum = l.sum := hperm.sum_eq
    have hsort : (List.insertionSort (· ≤ ·) l).Sorted (· ≤ ·) :=
      List.sorted_insertionSort _ l
    have hmem : ∀ x ∈ List.insertionSort (· ≤ ·) l, 0 ≤ x :=
      fun x hx => h x (hperm.subset hx)
    have hsumnn : 0 ≤ (List.insertionSort (· ≤ ·) l).sum :=
      List.sum_nonneg hmem
    unfold calculateGini
    rw [if_neg hnil]
    by_cases hz : (List.insertionSort (· ≤ ·) l).sum = 0
    · rw [if_pos hz]
      exact ⟨⟨le_refl 0, by norm_num⟩, fun _ => rfl, fun _ => rfl,
        fun _ hsz => absurd (hsum.symm.trans hz) hsz⟩
    · rw [if_neg hz]
      have hspos : 0 < (List.insertionSort (· ≤ ·) l).sum :=
        lt_of_le_of_ne hsumnn (Ne.symm hz)
      have hlpos : 0 < l.length := Nat.pos_of_ne_zero hnil
      have hlq : (0 : ℚ) < l.length := by exact_mod_cast hlpos
      have hnum : 0 ≤ giniNum (List.insertionSort (· ≤ ·) l) :=
        giniNum_nonneg hsort
      have hub : giniNum (List.insertionSort (· ≤ ·) l) ≤
          (((List.insertionSort (· ≤ ·) l).length : ℚ) - 1) *
            (List.insertionSort (· ≤ ·) l).sum := giniNum_le hmem
      have hge : 0 ≤ giniNum (List.insertionSort (· ≤ ·) l) /
          (((List.insertionSort (· ≤ ·) l).length : ℚ) *
            (List.insertionSort (· ≤ ·) l).sum) :=
        div_nonneg hnum (mul_nonneg (by positivity) hsumnn)
      have hle : giniNum (List.insertionSort (· ≤ ·) l) /
          (((List.insertionSort (· ≤ ·) l).length : ℚ) *
            (List.insertionSort (· ≤ ·) l).sum) ≤
          ((l.length : ℚ) - 1) / l.length := by
        rw [hlen, hsum] at hub ⊢
        have hden : (0 : ℚ) < (l.length : ℚ) * l.sum := by
          rw [← hsum]
          exact mul_pos hlq hspos
        calc giniNum (List.insertionSort (· ≤ ·) l) /
              ((l.length : ℚ) * l.sum) ≤
            (((l.length : ℚ) - 1) * l.sum) / ((l.length : ℚ) * l.sum) :=
              (div_le_div_right hden).mpr hub
          _ = ((l.length : ℚ) - 1) / l.length := by
              rw [mul_div_mul_right _ _ (by rw [← hsum]; exact ne_of_gt hspos)]
      have hfrac : ((l.length : ℚ) - 1) / l.length < 1 :=
        (div_lt_one hlq).mpr (by linarith)
      refine ⟨⟨hge, le_of_lt (lt_of_le_of_lt hle hfrac)⟩,
        fun heq => absurd (by rw [heq]; rfl) hnil,
        fun h0 => absurd (hsum.trans h0) hz,
        fun _ _ => ⟨hle, hfrac⟩⟩

/-- C10 witness: the bounds applied at the concrete list [1, 3] (whose
Gini coefficient is 1/4). -/
theorem c10_witness :
    (∀ x ∈ ([1, 3] : List ℚ), 0 ≤ x) ∧
    ((0 ≤ calculateGini [1, 3] ∧ calculateGini [1, 3] ≤ 1) ∧
     (([1, 3] : List ℚ) = [] → calculateGini [1, 3] = 0) ∧
     (([1, 3] : List ℚ).sum = 0 → calculateGini [1, 3] = 0) ∧
     (([1, 3] : List ℚ) ≠ [] → ([1, 3] : List ℚ).sum ≠ 0 →
       calculateGini [1, 3] ≤
         ((([1, 3] : List ℚ).length : ℚ) - 1) / ([1, 3] : List ℚ).length ∧
       ((([1, 3] : List ℚ).length : ℚ) - 1) / ([1, 3] : List ℚ).length < 1)) :=
  ⟨by norm_num, c10_gini_bounds [1, 3] (by norm_num)⟩

end Analyzer
